import Mathlib

/-!
Shallow embedding of the `terminal` MCP server's validation and
boundary-enforcement core (`src/src/index.ts`) together with theorems
checking the natural-language specification against it.

JavaScript strings are modelled as `List Char` (`JStr`); the JS library
functions the source relies on (`String.prototype.trim`, `toLowerCase`,
`startsWith`, `Array.prototype.join`, `includes`, POSIX `path.resolve`,
and the concrete regular expressions of `FORBIDDEN_PATTERNS`) are embedded
as executable Lean functions on `JStr`.  The embedded program definitions
(`ALLOWED_COMMANDS`, `FORBIDDEN_PATTERNS`, `validateAndSanitizeCommand`,
`getBoundaryDir`, `resolveAndValidatePath`, `executeCommand`,
`formatCommandOutput`) keep the source's names and control flow.
-/

namespace Terminal

/-- JavaScript strings are modelled as lists of characters. -/
abbrev JStr := List Char

/-- Turn a Lean string literal into the `JStr` it denotes. -/
def jstr (s : String) : JStr := s.data

/-- Character set removed by `String.prototype.trim` (ECMAScript WhiteSpace
and LineTerminator code points). -/
def isJsWhite (c : Char) : Bool :=
  [9, 10, 11, 12, 13, 32, 160, 0x1680, 0x2000, 0x2001, 0x2002, 0x2003, 0x2004, 0x2005,
   0x2006, 0x2007, 0x2008, 0x2009, 0x200A, 0x2028, 0x2029, 0x202F, 0x205F, 0x3000,
   0xFEFF].contains c.toNat

/-- `String.prototype.trim`: strip leading and trailing whitespace. -/
def jsTrimList (s : JStr) : JStr :=
  ((s.dropWhile isJsWhite).reverse.dropWhile isJsWhite).reverse

/-- `String.prototype.toLowerCase`, on the ASCII fragment the command
strings of this program range over. -/
def jsToLowerList (s : JStr) : JStr := s.map Char.toLower

/-- `String.prototype.startsWith('-')`. -/
def startsDash (s : JStr) : Bool :=
  match s with
  | [] => false
  | c :: _ => c = '-'

/-- Regex word character, JS `\w` = `[A-Za-z0-9_]`. -/
def isWordChar (c : Char) : Bool :=
  ('a' ≤ c && c ≤ 'z') || ('A' ≤ c && c ≤ 'Z') || ('0' ≤ c && c ≤ '9') || c = '_'

/-- A `\b` position holds before the scanned suffix when there is no
previous character or the previous character is not a word character. -/
def boundaryBefore (prev : Option Char) : Bool :=
  match prev with
  | none => true
  | some c => !isWordChar c

/-- `w` is a prefix of `s` and the character of `s` following it (if any)
is not a word character (the closing `\b` of `\bw\b`). -/
def matchWordAt (w s : JStr) : Bool :=
  match w, s with
  | [], [] => true
  | [], c :: _ => !isWordChar c
  | _ :: _, [] => false
  | a :: w', b :: s' => a = b && matchWordAt w' s'

/-- Scan `s` (with `prev` the character just before it) for an occurrence
of `\bw\b`. -/
def hasWordFrom (w : JStr) (prev : Option Char) : JStr → Bool
  | [] => boundaryBefore prev && matchWordAt w []
  | c :: rest =>
    (boundaryBefore prev && matchWordAt w (c :: rest)) || hasWordFrom w (some c) rest

/-- JS `/\bw\b/.test(s)` for a word `w` made of word characters. -/
def hasWord (w s : JStr) : Bool := hasWordFrom w none s

/-- Disjunction of `\bw\b` tests over an alternation of words. -/
def hasAnyWord (ws : List JStr) (s : JStr) : Bool := ws.any (fun w => hasWord w s)

/-- JS `/\b\.\b/.test(s)`: a literal `.` is between word boundaries exactly
when it sits between two word characters. -/
def hasDotBetweenWords : JStr → Bool
  | a :: b :: c :: rest =>
    (isWordChar a && b = '.' && isWordChar c) || hasDotBetweenWords (b :: c :: rest)
  | _ => false

/-- Character-class test: does `s` contain a character of `cs`? -/
def containsAnyChar (cs : List Char) (s : JStr) : Bool := s.any (fun c => cs.contains c)

/-- One entry of `FORBIDDEN_PATTERNS`: the regex source text (as reported in
rejection messages) and its `test` function. -/
structure ForbiddenPattern where
  source : JStr
  test : JStr → Bool

/-- `FORBIDDEN_PATTERNS` from `src/src/index.ts` lines 95–116, in source
order, each regex embedded as the Boolean test it denotes. -/
def FORBIDDEN_PATTERNS : List ForbiddenPattern :=
  [ -- Command injection attempts: /[;&|`$(){}]/
    { source := jstr "[;&|`$()\x7b\x7d]",
      test := containsAnyChar [';', '&', '|', Char.ofNat 96, '$', '(', ')',
                               Char.ofNat 123, Char.ofNat 125] },
    -- File operations
    { source := jstr "\\brm\\b|\\bmv\\b|\\bcp\\b|\\btouch\\b|\\bmkdir\\b|\\brmdir\\b",
      test := hasAnyWord [jstr "rm", jstr "mv", jstr "cp", jstr "touch", jstr "mkdir",
                          jstr "rmdir"] },
    -- Network operations
    { source := jstr "\\bcurl\\b|\\bwget\\b|\\bssh\\b|\\bscp\\b|\\brsync\\b|\\bftp\\b|\\btelnet\\b",
      test := hasAnyWord [jstr "curl", jstr "wget", jstr "ssh", jstr "scp", jstr "rsync",
                          jstr "ftp", jstr "telnet"] },
    -- System modification
    { source := jstr "\\bsudo\\b|\\bsu\\b|\\bchmod\\b|\\bchown\\b|\\bmount\\b|\\bumount\\b",
      test := hasAnyWord [jstr "sudo", jstr "su", jstr "chmod", jstr "chown", jstr "mount",
                          jstr "umount"] },
    -- Process control
    { source := jstr "\\bkill\\b|\\bkillall\\b|\\bnohup\\b|\\bbg\\b|\\bfg\\b|\\bjobs\\b",
      test := hasAnyWord [jstr "kill", jstr "killall", jstr "nohup", jstr "bg", jstr "fg",
                          jstr "jobs"] },
    -- Package management
    { source := jstr "\\bapt\\b|\\byum\\b|\\bpip\\b|\\binstall\\b|\\bremove\\b|\\bupdate\\b|\\bupgrade\\b",
      test := hasAnyWord [jstr "apt", jstr "yum", jstr "pip", jstr "install", jstr "remove",
                          jstr "update", jstr "upgrade"] },
    -- Editors and interactive tools
    { source := jstr "\\bvi\\b|\\bvim\\b|\\bnano\\b|\\bemacs\\b|\\btop\\b|\\bhtop\\b|\\bless\\b|\\bmore\\b",
      test := hasAnyWord [jstr "vi", jstr "vim", jstr "nano", jstr "emacs", jstr "top",
                          jstr "htop", jstr "less", jstr "more"] },
    -- Shell features (note the `\b\.\b` alternative: a dot between word characters)
    { source := jstr "\\bsource\\b|\\b\\.\\b|\\bexport\\b|\\balias\\b|\\bunalias\\b|\\bhistory\\b",
      test := fun s =>
        hasAnyWord [jstr "source"] s || hasDotBetweenWords s ||
        hasAnyWord [jstr "export", jstr "alias", jstr "unalias", jstr "history"] s },
    -- Redirection and pipes: /[<>]/
    { source := jstr "[<>]",
      test := containsAnyChar ['<', '>'] },
    -- Dangerous characters: /[*?[\]]/
    { source := jstr "[*?[\\]]",
      test := containsAnyChar ['*', '?', '[', ']'] } ]

/-- `CommandConfig` from `src/src/index.ts` lines 46–50 (`requiresFile`
is optional in TS and defaults to a falsy value). -/
structure CommandConfig where
  allowedArgs : List JStr
  description : JStr
  requiresFile : Bool := false
deriving DecidableEq

/-- `ALLOWED_COMMANDS` from `src/src/index.ts` lines 52–92, as an ordered
association list (JS object string keys keep insertion order). -/
def ALLOWED_COMMANDS : List (JStr × CommandConfig) :=
  [ (jstr "ls", { allowedArgs := [jstr "-l", jstr "-a", jstr "-la", jstr "-h", jstr "-R",
                                  jstr "--help"],
                  description := jstr "List directory contents" }),
    (jstr "cat", { allowedArgs := [jstr "--help"],
                   description := jstr "Display file contents", requiresFile := true }),
    (jstr "head", { allowedArgs := [jstr "-n", jstr "--help"],
                    description := jstr "Display first lines of file", requiresFile := true }),
    (jstr "tail", { allowedArgs := [jstr "-n", jstr "--help"],
                    description := jstr "Display last lines of file", requiresFile := true }),
    (jstr "file", { allowedArgs := [jstr "--help"],
                    description := jstr "Determine file type", requiresFile := true }),
    (jstr "wc", { allowedArgs := [jstr "-l", jstr "-w", jstr "-c", jstr "--help"],
                  description := jstr "Word, line, character count", requiresFile := true }),
    (jstr "pwd", { allowedArgs := [jstr "--help"],
                   description := jstr "Print working directory" }),
    (jstr "find", { allowedArgs := [jstr "-name", jstr "-type", jstr "-maxdepth", jstr "--help"],
                    description := jstr "Find files and directories" }),
    (jstr "tree", { allowedArgs := [jstr "-L", jstr "-a", jstr "--help"],
                    description := jstr "Display directory tree" }),
    (jstr "whoami", { allowedArgs := [jstr "--help"],
                      description := jstr "Show current user" }),
    (jstr "id", { allowedArgs := [jstr "--help"],
                  description := jstr "Show user and group IDs" }),
    (jstr "uname", { allowedArgs := [jstr "-a", jstr "-r", jstr "-s", jstr "--help"],
                     description := jstr "System information" }),
    (jstr "date", { allowedArgs := [jstr "--help"],
                    description := jstr "Show current date and time" }),
    (jstr "uptime", { allowedArgs := [jstr "--help"],
                      description := jstr "Show system uptime" }),
    (jstr "df", { allowedArgs := [jstr "-h", jstr "--help"],
                  description := jstr "Show disk space usage" }),
    (jstr "free", { allowedArgs := [jstr "-h", jstr "--help"],
                    description := jstr "Show memory usage" }),
    (jstr "ps", { allowedArgs := [jstr "aux", jstr "--help"],
                  description := jstr "Show running processes" }),
    (jstr "node", { allowedArgs := [jstr "--version", jstr "--help"],
                    description := jstr "Node.js version" }),
    (jstr "npm", { allowedArgs := [jstr "--version", jstr "list", jstr "--help"],
                   description := jstr "NPM operations (limited)" }),
    (jstr "git", { allowedArgs := [jstr "status", jstr "log", jstr "--oneline", jstr "branch",
                                   jstr "diff", jstr "--help"],
                   description := jstr "Git operations (read-only)" }),
    (jstr "which", { allowedArgs := [jstr "--help"],
                     description := jstr "Locate command" }),
    (jstr "type", { allowedArgs := [jstr "--help"],
                    description := jstr "Display command type" }),
    (jstr "grep", { allowedArgs := [jstr "-n", jstr "-i", jstr "-r", jstr "--help"],
                    description := jstr "Search text patterns", requiresFile := true }),
    (jstr "sort", { allowedArgs := [jstr "-n", jstr "-r", jstr "--help"],
                    description := jstr "Sort lines", requiresFile := true }),
    (jstr "uniq", { allowedArgs := [jstr "-c", jstr "--help"],
                    description := jstr "Report unique lines", requiresFile := true }),
    (jstr "man", { allowedArgs := [jstr "--help"],
                   description := jstr "Manual pages", requiresFile := true }),
    (jstr "help", { allowedArgs := [],
                    description := jstr "Help command" }),
    (jstr "echo", { allowedArgs := [jstr "--help"],
                    description := jstr "Display text (limited)" }) ]

/-- The safe file-path regex of line 172 (an optional leading slash, then one
or more characters among letters, digits, dot, underscore, slash, hyphen):
because the slash is itself in the character class, the regex holds exactly
when the string is non-empty and all of its characters are in the class. -/
def isPathChar (c : Char) : Bool :=
  ('a' ≤ c && c ≤ 'z') || ('A' ≤ c && c ≤ 'Z') || ('0' ≤ c && c ≤ '9') ||
  c = '.' || c = '_' || c = '/' || c = '-'

/-- Test of the safe file-path regex on a whole argument. -/
def pathGrammar (s : JStr) : Bool := !s.isEmpty && s.all isPathChar

/-- Property names of `Object.prototype`, all visible to the JS `in`
operator through the prototype chain of the `ALLOWED_COMMANDS` object
literal.  Only the all-lowercase ones (`constructor`, `__proto__`) can ever
equal a trimmed, lowercased command, since `in` is case-sensitive. -/
def OBJECT_PROTOTYPE_PROPS : List JStr :=
  [jstr "constructor", jstr "__defineGetter__", jstr "__defineSetter__",
   jstr "hasOwnProperty", jstr "__lookupGetter__", jstr "__lookupSetter__",
   jstr "isPrototypeOf", jstr "propertyIsEnumerable", jstr "toString",
   jstr "valueOf", jstr "toLocaleString", jstr "__proto__"]

/-- `CommandValidationResult` from `src/src/index.ts` lines 118–123.  The
extra `threw` flag is not a field of the TS interface: it marks the one case
in which the validator does not return a result at all but throws an
uncaught `TypeError` (see `validateAndSanitizeCommand`); for such results
`isValid` is false and `error` carries the `TypeError` message. -/
structure CommandValidationResult where
  isValid : Bool
  sanitizedCommand : Option JStr := none
  sanitizedArgs : Option (List JStr) := none
  error : Option JStr := none
  threw : Bool := false
deriving DecidableEq

/-- The argument loop of `validateAndSanitizeCommand` (lines 156–182): trims
each argument, silently drops empty ones, accepts an argument into the
sanitized list when the (mutable in the source) `isAllowed` flag ends up
true, and otherwise aborts with the source's error message. -/
def sanitizeArgs (commandConfig : CommandConfig) (normalizedCommand : JStr) :
    List JStr → Except JStr (List JStr)
  | [] => .ok []
  | arg :: rest =>
    let trimmedArg := jsTrimList arg
    if trimmedArg.isEmpty then sanitizeArgs commandConfig normalizedCommand rest
    else
      let isAllowed :=
        if commandConfig.allowedArgs.length > 0 then
          commandConfig.allowedArgs.contains trimmedArg
        else false
      if commandConfig.requiresFile && !startsDash trimmedArg then
        if pathGrammar trimmedArg then
          -- the source sets `isAllowed = true` here, so the final check passes
          (sanitizeArgs commandConfig normalizedCommand rest).map (fun l => trimmedArg :: l)
        else
          .error (jstr "File path argument '" ++ trimmedArg ++ jstr "' is not allowed")
      else if !isAllowed then
        .error (jstr "Argument '" ++ trimmedArg ++ jstr "' not allowed for command '" ++
                normalizedCommand ++ jstr "'")
      else
        (sanitizeArgs commandConfig normalizedCommand rest).map (fun l => trimmedArg :: l)

/-- The rejection message of the whitelist lookup (lines 135–140). -/
def whitelistRejectMsg (normalizedCommand : JStr) : JStr :=
  jstr "Command '" ++ normalizedCommand ++
  jstr "' is not in the allowed whitelist. Allowed commands: " ++
  List.intercalate (jstr ", ") (ALLOWED_COMMANDS.map (fun e => e.1))

/-- The composed line of line 145: `` `${normalizedCommand} ${args.join(' ')}` ``. -/
def fullCommandLine (normalizedCommand : JStr) (args : List JStr) : JStr :=
  normalizedCommand ++ [' '] ++ List.intercalate [' '] args

/-- `validateAndSanitizeCommand` from `src/src/index.ts` lines 125–197.  The
whitelist test of line 135 is the JS `in` operator, which sees both the own
keys of `ALLOWED_COMMANDS` and the inherited `Object.prototype` property
names; line 142 then indexes the object, yielding the `CommandConfig` for an
own key but the inherited prototype member — whose `allowedArgs` and
`requiresFile` are undefined — for a name such as `constructor` or
`__proto__`.  In that inherited case every argument that trims to empty is
dropped before `allowedArgs` is touched, so an all-empty argument list
completes the loop and is accepted with an empty sanitized list, while the
first surviving argument evaluates `undefined.length`: the program throws an
uncaught `TypeError` there, modelled as an invalid result with `threw` set. -/
def validateAndSanitizeCommand (command : JStr) (args : List JStr) :
    CommandValidationResult :=
  if command.isEmpty then
    { isValid := false, error := some (jstr "Command must be a non-empty string") }
  else
    let normalizedCommand := jsToLowerList (jsTrimList command)
    let inAllowed := (List.lookup normalizedCommand ALLOWED_COMMANDS).isSome ||
      OBJECT_PROTOTYPE_PROPS.contains normalizedCommand
    if !inAllowed then
      { isValid := false, error := some (whitelistRejectMsg normalizedCommand) }
    else
      let fullCommandString := fullCommandLine normalizedCommand args
      match FORBIDDEN_PATTERNS.find? (fun p => p.test fullCommandString) with
      | some pattern =>
        { isValid := false,
          error := some (jstr "Command contains forbidden pattern: " ++ pattern.source) }
      | none =>
        match List.lookup normalizedCommand ALLOWED_COMMANDS with
        | some commandConfig =>
          match sanitizeArgs commandConfig normalizedCommand args with
          | .error e => { isValid := false, error := some e }
          | .ok sanitizedArgs =>
            if sanitizedArgs.length > 10 then
              { isValid := false,
                error := some (jstr "Too many arguments (maximum 10 allowed)") }
            else
              { isValid := true, sanitizedCommand := some normalizedCommand,
                sanitizedArgs := some sanitizedArgs }
        | none =>
          if args.all (fun a => (jsTrimList a).isEmpty) then
            { isValid := true, sanitizedCommand := some normalizedCommand,
              sanitizedArgs := some [] }
          else
            { isValid := false, threw := true,
              error := some
                (jstr "TypeError: Cannot read properties of undefined (reading 'length')") }

/-! POSIX `path.resolve`, as used by `resolveAndValidatePath`.  Node's
algorithm walks the argument list from right to left, prepending segments
until an absolute path is formed (falling back to `process.cwd()`), then
normalizes the concatenation: empty and `.` segments are dropped, `..` pops
the previous segment, and above-root `..` segments are kept only for
relative results. -/

/-- Split a path string on `/`, keeping empty segments. -/
def splitSep : JStr → List JStr
  | [] => [[]]
  | c :: rest =>
    if c = '/' then [] :: splitSep rest
    else
      match splitSep rest with
      | [] => [[c]]
      | seg :: segs => (c :: seg) :: segs

/-- Does the path string start with the separator (is it absolute)? -/
def isAbsPath (s : JStr) : Bool :=
  match s with
  | [] => false
  | c :: _ => c = '/'

/-- Segment normalization of Node's `normalizeString`, as a stack fold
(`stack` holds the processed segments in reverse). -/
def normalizeSegs (allowAboveRoot : Bool) (segs : List JStr) : List JStr :=
  (segs.foldl (fun stack seg =>
    if seg.isEmpty || seg = jstr "." then stack
    else if seg = jstr ".." then
      match stack with
      | s :: rest => if s = jstr ".." then seg :: s :: rest else rest
      | [] => if allowAboveRoot then [seg] else []
    else seg :: stack) []).reverse

/-- The right-to-left accumulation loop of `path.resolve`: `entries` is the
argument list reversed with `process.cwd()` appended; returns the raw
concatenation and whether an absolute path was reached. -/
def resolveAccum : List JStr → JStr → JStr × Bool
  | [], acc => (acc, false)
  | p :: rest, acc =>
    if p.isEmpty then resolveAccum rest acc
    else
      let acc' := p ++ ['/'] ++ acc
      if isAbsPath p then (acc', true) else resolveAccum rest acc'

/-- POSIX `path.resolve(...paths)` with ambient working directory
`processCwd` (consulted only when no argument yields an absolute path). -/
def pathResolve (processCwd : JStr) (paths : List JStr) : JStr :=
  let (pre, abs) := resolveAccum (paths.reverse ++ [processCwd]) []
  let norm := List.intercalate ['/'] (normalizeSegs (!abs) (splitSep pre))
  if abs then '/' :: norm
  else if norm.isEmpty then ['.'] else norm

/-- `getBoundaryDir` from `src/src/index.ts` lines 2–4:
`process.env.BOUNDARY_DIR || '/tmp'` (an unset or empty variable is falsy). -/
def getBoundaryDir (boundaryDirEnv : Option JStr) : JStr :=
  match boundaryDirEnv with
  | some s => if s.isEmpty then jstr "/tmp" else s
  | none => jstr "/tmp"

/-- Outcome of the boundary resolver: the resolved path, or the thrown
`McpError`'s message. -/
inductive ResolveResult where
  | ok (resolved : JStr)
  | error (message : JStr)
deriving DecidableEq

/-- Is the resolver outcome an acceptance? -/
def ResolveResult.isOk : ResolveResult → Bool
  | .ok _ => true
  | .error _ => false

/-- `resolveAndValidatePath` from `src/src/index.ts` lines 10–24, with the
environment variable `BOUNDARY_DIR` and the ambient `process.cwd()` made
explicit (`path.sep` is `/` on POSIX). -/
def resolveAndValidatePath (boundaryDirEnv : Option JStr) (processCwd : JStr)
    (currentDir userPath : JStr) : ResolveResult :=
  let boundary := pathResolve processCwd [getBoundaryDir boundaryDirEnv]
  let resolved := pathResolve processCwd [currentDir, userPath]
  if resolved = boundary || (boundary ++ ['/']).isPrefixOf resolved then
    .ok resolved
  else
    .error (jstr "🔒 SECURITY BLOCK: Path '" ++ resolved ++
            jstr "' is outside the allowed boundary (" ++ boundary ++ jstr ")")

/-! The Execution Gate (`executeCommand`, `src/src/index.ts` lines 318–368)
and the session state it updates.  The underlying `execAsync` call is the
operating system's behaviour, not this program's; it is passed in as an
explicit `ExecBehavior` value (success with captured streams, or a caught
error with its optional `code`, `stdout`, `stderr` and `message`). -/

/-- `ServerState` from `src/src/index.ts` lines 219–223. -/
structure ServerState where
  currentDirectory : JStr
  lastExitCode : Option Int
  lastCommand : Option JStr
deriving DecidableEq

/-- The `options` parameter of `executeCommand` (lines 321–325). -/
structure ExecOptions where
  cwd : Option JStr := none
  timeout : Option Nat := none
  env : List (JStr × JStr) := []
deriving DecidableEq

/-- What the awaited `execAsync` call did: resolved with captured streams,
or rejected with an error object carrying optional fields. -/
inductive ExecBehavior where
  | success (stdout stderr : JStr)
  | failure (code : Option Int) (stdout stderr : Option JStr) (message : JStr)
deriving DecidableEq

/-- The spawn request handed to `execAsync`: the composed command line and
the `execOptions` of lines 337–350 (`cwd`, clamped `timeout`, caller env
additions; the four inherited variables PATH/HOME/USER/SHELL are ambient). -/
structure SpawnRecord where
  fullCommand : JStr
  cwd : JStr
  timeout : Nat
  extraEnv : List (JStr × JStr)
deriving DecidableEq

/-- Result of an `executeCommand` call: an exception thrown before any
process is spawned (the validator's `McpError` or its `TypeError`), or a
completed spawn with the formatted output text. -/
inductive ExecOutcome where
  | rejected (message : JStr)
  | completed (spawn : SpawnRecord) (text : JStr)
deriving DecidableEq

/-- The working directory the spawned process ran in, if one was spawned. -/
def ExecOutcome.spawnCwd : ExecOutcome → Option JStr
  | .rejected _ => none
  | .completed spawn _ => some spawn.cwd

/-- Whether the call ended in a thrown exception (no process spawned). -/
def ExecOutcome.isRejected : ExecOutcome → Bool
  | .rejected _ => true
  | .completed _ _ => false

/-- JS `x || d` for an optional numeric `x` (`0` and `undefined` are falsy). -/
def jsOrInt (x : Option Int) (d : Int) : Int :=
  match x with
  | some n => if n = 0 then d else n
  | none => d

/-- JS `x || d` for an optional numeric `x` as used for the timeout. -/
def jsOrNat (x : Option Nat) (d : Nat) : Nat :=
  match x with
  | some n => if n = 0 then d else n
  | none => d

/-- JS `x || d` for an optional string `x` (`undefined` and `''` are falsy). -/
def jsOrStr (x : Option JStr) (d : JStr) : JStr :=
  match x with
  | some s => if s.isEmpty then d else s
  | none => d

/-- Decimal rendering of the exit code used in the formatted output. -/
def intToJStr (i : Int) : JStr :=
  if i < 0 then '-' :: Nat.toDigits 10 i.natAbs else Nat.toDigits 10 i.natAbs

/-- `formatCommandOutput` from `src/src/index.ts` lines 300–316. -/
def formatCommandOutput (stdout stderr : JStr) (exitCode : Option Int) : JStr :=
  let output :=
    (if stdout.isEmpty then [] else jstr "STDOUT:\n" ++ stdout ++ jstr "\n") ++
    (if stderr.isEmpty then [] else jstr "STDERR:\n" ++ stderr ++ jstr "\n") ++
    (match exitCode with
     | some c => jstr "Exit Code: " ++ intToJStr c ++ jstr "\n"
     | none => [])
  jsTrimList output

/-- The composed line spawned by the gate (line 334):
`` `${sanitizedCommand} ${sanitizedArgs.join(' ')}` ``. -/
def execFullCommand (validation : CommandValidationResult) : JStr :=
  (validation.sanitizedCommand.getD []) ++ [' '] ++
  List.intercalate [' '] (validation.sanitizedArgs.getD [])

/-- `executeCommand` from `src/src/index.ts` lines 318–368: validate, throw
an `McpError` on invalid input, otherwise spawn the composed line with
`cwd: options.cwd || this.state.currentDirectory` (JS `||`: an absent or
empty `cwd` falls back to the session directory) and the clamped timeout,
then record `lastExitCode`/`lastCommand` and format the output (a caught
error uses `error.code || 1`, `error.stdout || ''`,
`error.stderr || error.message`).  A validator `TypeError` (its `threw`
flag) propagates out of line 328 unwrapped; a returned invalid result
raises the `McpError` of line 330 — either way no process is spawned and
the state is untouched, so both are an `ExecOutcome.rejected`, carrying
the exception's own message. -/
def executeCommand (state : ServerState) (command : JStr) (args : List JStr)
    (options : ExecOptions) (behavior : ExecBehavior) : ServerState × ExecOutcome :=
  let validation := validateAndSanitizeCommand command args
  if validation.isValid = false then
    (state,
     .rejected (if validation.threw then validation.error.getD []
                else jstr "🔒 SECURITY BLOCK: " ++ validation.error.getD []))
  else
    let fullCommand := execFullCommand validation
    let spawn : SpawnRecord :=
      { fullCommand := fullCommand,
        cwd := jsOrStr options.cwd state.currentDirectory,
        timeout := min (jsOrNat options.timeout 10000) 10000,
        extraEnv := options.env }
    match behavior with
    | .success stdout stderr =>
      ({ state with lastExitCode := some 0, lastCommand := some fullCommand },
       .completed spawn (formatCommandOutput stdout stderr (some 0)))
    | .failure code stdout stderr message =>
      let effCode := jsOrInt code 1
      ({ state with lastExitCode := some effCode, lastCommand := some fullCommand },
       .completed spawn
         (formatCommandOutput (jsOrStr stdout []) (jsOrStr stderr message) (some effCode)))

/-- The per-argument acceptance condition implemented by the loop body of
`validateAndSanitizeCommand` (lines 164–180), for a non-empty trimmed
argument `t`: in the `requiresFile`-and-not-dash branch the path grammar
alone decides; otherwise the (guarded) `allowedArgs.includes` decides. -/
def argAccepted (commandConfig : CommandConfig) (t : JStr) : Bool :=
  if commandConfig.requiresFile && !startsDash t then pathGrammar t
  else if commandConfig.allowedArgs.length > 0 then commandConfig.allowedArgs.contains t
  else false

/-- The exit code recorded in `lastExitCode` for each `execAsync` behaviour:
`0` on success, `error.code || 1` on a caught error. -/
def behaviorExitCode : ExecBehavior → Int
  | .success _ _ => 0
  | .failure code _ _ _ => jsOrInt code 1

/-- Spec-side model of platform symlink aliasing, used to state the
symlink-canonicalization claim: a finite table maps a symlink path to its
target directory, and a path equal to a link (or extending it below) denotes
the physical directory obtained by substituting the target.  The embedded
`resolveAndValidatePath` never consults such a table. -/
def specPhysicalPath (links : List (JStr × JStr)) (p : JStr) : JStr :=
  match links.find? (fun e => p = e.1 || (e.1 ++ ['/']).isPrefixOf p) with
  | some e => e.2 ++ p.drop e.1.length
  | none => p

/-- Modelled from the spec: the escape flag (`BOUNDARY_ESCAPE`) of the
Boundary Resolver contract is documented in the repository's README and
CHANGELOG and exercised by its unit tests, but no code under `src/` reads
it (`resolveAndValidatePath` checks unconditionally).  Per the spec: "if
`escapeEnabled`, accept unconditionally with the naively resolved path
(boundary enforcement fully bypassed)"; otherwise the boundary prefix
check applies. -/
def resolveWithEscape (escapeEnabled : Bool) (boundaryDirEnv : Option JStr)
    (processCwd currentDir userPath : JStr) : ResolveResult :=
  if escapeEnabled then .ok (pathResolve processCwd [currentDir, userPath])
  else resolveAndValidatePath boundaryDirEnv processCwd currentDir userPath

/-- A concrete session state (current directory `/tmp`, no command run yet)
used by the concrete-instance theorems. -/
def sampleState : ServerState :=
  { currentDirectory := jstr "/tmp", lastExitCode := none, lastCommand := none }

/-! Helper lemmas about the argument loop and the policy table, followed by
the theorems settling the specification claims. -/
/-- The guarded `allowedArgs.length > 0` check of line 166 is equivalent to a
plain `includes` test, since `includes` on an empty array is false. -/
theorem guardedContains (l : List JStr) (t : JStr) :
    (if l.length > 0 then l.contains t else false) = l.contains t := by
  cases l <;> simp

/-- An argument that trims to the empty string is silently dropped by the
argument loop (line 162). -/
theorem sanitizeArgs_cons_skip {cfg : CommandConfig} {n arg : JStr} {rest : List JStr}
    (h : (jsTrimList arg).isEmpty = true) :
    sanitizeArgs cfg n (arg :: rest) = sanitizeArgs cfg n rest := by
  simp [sanitizeArgs, h]

/-- When the per-argument condition `argAccepted` holds for a non-empty
trimmed argument, the loop accepts it into the sanitized list and continues. -/
theorem sanitizeArgs_cons_accept {cfg : CommandConfig} {n arg : JStr} {rest : List JStr}
    (h1 : (jsTrimList arg).isEmpty = false)
    (h2 : argAccepted cfg (jsTrimList arg) = true) :
    sanitizeArgs cfg n (arg :: rest) =
      (sanitizeArgs cfg n rest).map (fun l => jsTrimList arg :: l) := by
  by_cases hrf : (cfg.requiresFile && !startsDash (jsTrimList arg)) = true
  · have hg : pathGrammar (jsTrimList arg) = true := by
      simpa [argAccepted, hrf] using h2
    simp [sanitizeArgs, h1, hrf, hg]
  · have hb : (cfg.requiresFile && !startsDash (jsTrimList arg)) = false := by
      simpa using hrf
    have hc : cfg.allowedArgs.contains (jsTrimList arg) = true := by
      have := h2
      rw [argAccepted, if_neg (by simp [hb]), guardedContains] at this
      exact this
    have hm : jsTrimList arg ∈ cfg.allowedArgs := by simpa using hc
    simp only [sanitizeArgs, h1, Bool.false_eq_true, if_false, hb]
    simp [guardedContains, hc]
    rintro (hx | hx)
    · rw [hx] at hm; simp at hm
    · exact absurd hm hx

/-- In the `requiresFile`-and-not-dash branch, an argument outside the path
grammar aborts the loop with the file-path error message (line 175). -/
theorem sanitizeArgs_cons_file_reject {cfg : CommandConfig} {n arg : JStr} {rest : List JStr}
    (h1 : (jsTrimList arg).isEmpty = false)
    (hrf : (cfg.requiresFile && !startsDash (jsTrimList arg)) = true)
    (hg : pathGrammar (jsTrimList arg) = false) :
    sanitizeArgs cfg n (arg :: rest) =
      .error (jstr "File path argument '" ++ jsTrimList arg ++ jstr "' is not allowed") := by
  simp [sanitizeArgs, h1, hrf, hg]

/-- Outside the file branch, an argument that is not an allowed literal
aborts the loop with the argument error message (line 179). -/
theorem sanitizeArgs_cons_arg_reject {cfg : CommandConfig} {n arg : JStr} {rest : List JStr}
    (h1 : (jsTrimList arg).isEmpty = false)
    (hrf : (cfg.requiresFile && !startsDash (jsTrimList arg)) = false)
    (hc : cfg.allowedArgs.contains (jsTrimList arg) = false) :
    sanitizeArgs cfg n (arg :: rest) =
      .error (jstr "Argument '" ++ jsTrimList arg ++ jstr "' not allowed for command '" ++
              n ++ jstr "'") := by
  have hm : jsTrimList arg ∉ cfg.allowedArgs := by simpa using hc
  simp [sanitizeArgs, h1, hrf, guardedContains, hc]
  intro hne hmem
  exact absurd hmem hm

/-- A list of arguments that are all non-empty after trimming and all
individually accepted sanitizes to its trimmed form, in order. -/
theorem sanitizeArgs_all_valid {cfg : CommandConfig} {n : JStr} :
    ∀ args : List JStr,
    (∀ a ∈ args, (jsTrimList a).isEmpty = false ∧ argAccepted cfg (jsTrimList a) = true) →
    sanitizeArgs cfg n args = .ok (args.map jsTrimList)
  | [], _ => rfl
  | arg :: rest, h => by
    have hh := h arg (by simp)
    have ht := @sanitizeArgs_all_valid cfg n rest (fun a ha => h a (by simp [ha]))
    rw [sanitizeArgs_cons_accept hh.1 hh.2, ht]
    rfl

/-- Every `ALLOWED_COMMANDS` entry with `requiresFile` set lists only
dash-led literals in `allowedArgs` (checked over the whole table). -/
theorem allowed_requiresFile_args_dashed :
    ALLOWED_COMMANDS.all
      (fun p => !p.2.requiresFile || p.2.allowedArgs.all startsDash) = true := by
  decide

/-- The empty string is not a key of the policy table. -/
theorem lookup_nil_eq_none : List.lookup ([] : JStr) ALLOWED_COMMANDS = none := by decide

/-- A command whose normalized form is a key of the policy table is not the
empty string (the empty string normalizes to itself, which is not a key). -/
theorem lookup_isEmpty_false {cmd : JStr} {cfg : CommandConfig}
    (h : List.lookup (jsToLowerList (jsTrimList cmd)) ALLOWED_COMMANDS = some cfg) :
    cmd.isEmpty = false := by
  cases he : cmd.isEmpty
  · rfl
  · rw [List.isEmpty_iff] at he
    rw [he] at h
    have : jsToLowerList (jsTrimList ([] : JStr)) = [] := by decide
    rw [this, lookup_nil_eq_none] at h
    exact absurd h (by simp)

/-- C2: for every command whose normalized form is a key of the policy table
and every argument list, if the composed line (normalized command, a space,
the space-joined raw arguments) matches any forbidden pattern, validation
rejects and the rejection reason names the matched pattern's source. -/
theorem forbidden_pattern_rejects (command : JStr) (args : List JStr)
    (cfg : CommandConfig)
    (hlk : List.lookup (jsToLowerList (jsTrimList command)) ALLOWED_COMMANDS = some cfg)
    (hp : ∃ p ∈ FORBIDDEN_PATTERNS,
          p.test (fullCommandLine (jsToLowerList (jsTrimList command)) args) = true) :
    (validateAndSanitizeCommand command args).isValid = false ∧
    ∃ p ∈ FORBIDDEN_PATTERNS,
      p.test (fullCommandLine (jsToLowerList (jsTrimList command)) args) = true ∧
      (validateAndSanitizeCommand command args).error =
        some (jstr "Command contains forbidden pattern: " ++ p.source) := by
  have he := lookup_isEmpty_false hlk
  have hsome : (FORBIDDEN_PATTERNS.find? (fun p =>
      p.test (fullCommandLine (jsToLowerList (jsTrimList command)) args))).isSome = true := by
    rw [List.find?_isSome]; exact hp
  obtain ⟨p₀, hfind⟩ := Option.isSome_iff_exists.mp hsome
  have hmem := List.mem_of_find?_eq_some hfind
  have htest := List.find?_some hfind
  have hval : validateAndSanitizeCommand command args =
      { isValid := false,
        error := some (jstr "Command contains forbidden pattern: " ++ p₀.source) } := by
    simp only [validateAndSanitizeCommand, he, Bool.false_eq_true, if_false]
    rw [hlk]
    simp only [Option.isSome_some, Bool.true_or, Bool.not_true, Bool.false_eq_true, if_false]
    rw [hfind]
  exact ⟨by rw [hval], p₀, hmem, htest, by rw [hval]⟩

/-- C2 witness: `ls` with the injection argument `; rm -rf /` is rejected
(the composed line matches the injection-character pattern), while plain
`ls` is accepted. -/
theorem forbidden_pattern_rejects_witness :
    (validateAndSanitizeCommand (jstr "ls") [jstr "; rm -rf /"]).isValid = false ∧
    (validateAndSanitizeCommand (jstr "ls") []).isValid = true :=
  ⟨(forbidden_pattern_rejects (jstr "ls") [jstr "; rm -rf /"]
      { allowedArgs := [jstr "-l", jstr "-a", jstr "-la", jstr "-h", jstr "-R", jstr "--help"],
        description := jstr "List directory contents" }
      (by decide)
      ⟨FORBIDDEN_PATTERNS.get ⟨0, by decide⟩, List.get_mem _ _ _, by decide⟩).1,
   by decide⟩

/-- C6 counterexample: `constructor` is not a key of the policy table, yet
the JS `in` whitelist test sees it through the prototype chain and the
validator accepts it outright with an empty argument list; the empty command
string also normalizes to a non-key and, while rejected, its message is the
non-empty-string message rather than the enumeration — the claim as stated
fails at both inputs. -/
theorem whitelist_in_operator_counterexample :
    List.lookup (jstr "constructor") ALLOWED_COMMANDS = none ∧
    jsToLowerList (jsTrimList (jstr "constructor")) = jstr "constructor" ∧
    (validateAndSanitizeCommand (jstr "constructor") []).isValid = true ∧
    (validateAndSanitizeCommand (jstr "__proto__") []).isValid = true ∧
    List.lookup (jsToLowerList (jsTrimList (jstr ""))) ALLOWED_COMMANDS = none ∧
    (validateAndSanitizeCommand (jstr "") []).error =
      some (jstr "Command must be a non-empty string") ∧
    (validateAndSanitizeCommand (jstr "") []).error ≠
      some (whitelistRejectMsg (jsToLowerList (jsTrimList (jstr "")))) := by
  refine ⟨by decide, by decide, by decide, by decide, by decide, by decide, by decide⟩

/-- C6 (amended): every non-empty command string whose trimmed, lowercased
form is neither a key of the policy table nor an inherited `Object.prototype`
property name is rejected regardless of the argument list, with the message
enumerating the full set of permitted commands (the empty command is
rejected earlier with a different message, and the inherited names
`constructor` and `__proto__` pass the JS `in` whitelist test instead of
being rejected). -/
theorem unknown_command_rejected_with_enumeration (command : JStr) (args : List JStr)
    (hne : command ≠ [])
    (hlk : List.lookup (jsToLowerList (jsTrimList command)) ALLOWED_COMMANDS = none)
    (hpr : OBJECT_PROTOTYPE_PROPS.contains (jsToLowerList (jsTrimList command)) = false) :
    validateAndSanitizeCommand command args =
      { isValid := false,
        error := some (whitelistRejectMsg (jsToLowerList (jsTrimList command))) } := by
  have he : command.isEmpty = false := by
    rw [List.isEmpty_eq_false]; exact hne
  simp only [validateAndSanitizeCommand, he, Bool.false_eq_true, if_false]
  rw [hlk, hpr]
  simp only [Option.isSome_none, Bool.false_or, Bool.not_false, if_true]

/-- C6 witness: the unknown command `Evil-Cmd ` (with arguments) is rejected
with the enumerating whitelist message for its normalized form. -/
theorem unknown_command_rejected_with_enumeration_witness :
    validateAndSanitizeCommand (jstr "Evil-Cmd ") [jstr "x"] =
      { isValid := false,
        error := some (whitelistRejectMsg (jstr "evil-cmd")) } := by
  have hn : jsToLowerList (jsTrimList (jstr "Evil-Cmd ")) = jstr "evil-cmd" := by decide
  have h := unknown_command_rejected_with_enumeration (jstr "Evil-Cmd ") [jstr "x"]
    (by decide) (by rw [hn]; decide) (by rw [hn]; decide)
  rw [h, hn]

/-- C7: for every entry of the policy table, a non-empty trimmed argument is
accepted into the sanitized list iff it is one of the entry's allowed
literals or the entry requires a file, the argument is not dash-led and it
matches the restrictive path grammar; otherwise the whole request is rejected
with a message naming the offending argument; an entry with no allowed
literals and `requiresFile` unset rejects every non-empty argument. -/
theorem argument_acceptance_characterization (c : JStr) (cfg : CommandConfig)
    (hmem : (c, cfg) ∈ ALLOWED_COMMANDS) (arg : JStr) (rest : List JStr)
    (hne : (jsTrimList arg).isEmpty = false) :
    ( (cfg.allowedArgs.contains (jsTrimList arg) = true ∨
       (cfg.requiresFile = true ∧ startsDash (jsTrimList arg) = false ∧
        pathGrammar (jsTrimList arg) = true)) →
        sanitizeArgs cfg c (arg :: rest) =
          (sanitizeArgs cfg c rest).map (fun l => jsTrimList arg :: l) )
    ∧ ( ¬(cfg.allowedArgs.contains (jsTrimList arg) = true ∨
          (cfg.requiresFile = true ∧ startsDash (jsTrimList arg) = false ∧
           pathGrammar (jsTrimList arg) = true)) →
        sanitizeArgs cfg c (arg :: rest) =
          (if cfg.requiresFile && !startsDash (jsTrimList arg) then
            Except.error
              (jstr "File path argument '" ++ jsTrimList arg ++ jstr "' is not allowed")
          else
            Except.error
              (jstr "Argument '" ++ jsTrimList arg ++ jstr "' not allowed for command '" ++
               c ++ jstr "'")) )
    ∧ ( cfg.allowedArgs = [] → cfg.requiresFile = false →
        sanitizeArgs cfg c (arg :: rest) =
          Except.error
            (jstr "Argument '" ++ jsTrimList arg ++ jstr "' not allowed for command '" ++
             c ++ jstr "'") ) := by
  have hdash : ∀ a ∈ cfg.allowedArgs, cfg.requiresFile = true → startsDash a = true := by
    have hall := allowed_requiresFile_args_dashed
    rw [List.all_eq_true] at hall
    have hx := hall (c, cfg) hmem
    intro a ha hrf
    rw [hrf] at hx
    simp only [Bool.not_true, Bool.false_or] at hx
    rw [List.all_eq_true] at hx
    exact hx a ha
  refine ⟨?_, ?_, ?_⟩
  · rintro (hc | ⟨hrf, hd, hg⟩)
    · by_cases hfb : (cfg.requiresFile && !startsDash (jsTrimList arg)) = true
      · exfalso
        have hm : jsTrimList arg ∈ cfg.allowedArgs := by simpa using hc
        rcases (Bool.and_eq_true _ _).mp hfb with ⟨h1, h2⟩
        have h3 := hdash (jsTrimList arg) hm h1
        rw [h3] at h2
        exact absurd h2 (by decide)
      · have hb : (cfg.requiresFile && !startsDash (jsTrimList arg)) = false := by
          simpa using hfb
        refine sanitizeArgs_cons_accept hne ?_
        rw [argAccepted, if_neg (by simp [hb]), guardedContains]
        exact hc
    · have hfb : (cfg.requiresFile && !startsDash (jsTrimList arg)) = true := by
        simp [hrf, hd]
      refine sanitizeArgs_cons_accept hne ?_
      simp [argAccepted, hfb, hg]
  · intro hnc
    rcases not_or.mp hnc with ⟨hc', hb'⟩
    have hc : cfg.allowedArgs.contains (jsTrimList arg) = false := by
      cases h : cfg.allowedArgs.contains (jsTrimList arg)
      · rfl
      · exact absurd h hc'
    by_cases hfb : (cfg.requiresFile && !startsDash (jsTrimList arg)) = true
    · have hg : pathGrammar (jsTrimList arg) = false := by
        cases h : pathGrammar (jsTrimList arg)
        · rfl
        · exfalso
          rcases (Bool.and_eq_true _ _).mp hfb with ⟨h1, h2⟩
          exact hb' ⟨h1, by simpa using h2, h⟩
      rw [if_pos hfb]
      exact sanitizeArgs_cons_file_reject hne hfb hg
    · have hb : (cfg.requiresFile && !startsDash (jsTrimList arg)) = false := by
        simpa using hfb
      rw [if_neg hfb]
      exact sanitizeArgs_cons_arg_reject hne hb hc
  · intro ha hrf
    have hb : (cfg.requiresFile && !startsDash (jsTrimList arg)) = false := by
      simp [hrf]
    have hc : cfg.allowedArgs.contains (jsTrimList arg) = false := by
      rw [ha]; rfl
    exact sanitizeArgs_cons_arg_reject hne hb hc

/-- C7 witness: for the `cat` entry (`requiresFile`), the path-grammar
argument `data_1/file-2` is accepted into the sanitized list. -/
theorem argument_acceptance_characterization_witness :
    sanitizeArgs
      { allowedArgs := [jstr "--help"], description := jstr "Display file contents",
        requiresFile := true }
      (jstr "cat") [jstr "data_1/file-2"] =
    (sanitizeArgs
      { allowedArgs := [jstr "--help"], description := jstr "Display file contents",
        requiresFile := true }
      (jstr "cat") []).map (fun l => jsTrimList (jstr "data_1/file-2") :: l) :=
  (argument_acceptance_characterization (jstr "cat")
    { allowedArgs := [jstr "--help"], description := jstr "Display file contents",
      requiresFile := true }
    (by decide) (jstr "data_1/file-2") [] (by decide)).1
    (Or.inr ⟨rfl, by decide, by decide⟩)

/-- C8 (amended): for a whitelisted command whose composed line passes the
forbidden patterns and whose arguments are individually valid and non-empty
after trimming, validation accepts exactly when there are at most 10
arguments, and rejects with the too-many-arguments message otherwise (the
limit is applied to the sanitized list, after empty arguments are dropped). -/
theorem arg_count_limit_sanitized (command : JStr) (args : List JStr) (cfg : CommandConfig)
    (hlk : List.lookup (jsToLowerList (jsTrimList command)) ALLOWED_COMMANDS = some cfg)
    (hpat : FORBIDDEN_PATTERNS.find?
      (fun p => p.test (fullCommandLine (jsToLowerList (jsTrimList command)) args)) = none)
    (hargs : ∀ a ∈ args,
      (jsTrimList a).isEmpty = false ∧ argAccepted cfg (jsTrimList a) = true) :
    validateAndSanitizeCommand command args =
      (if args.length > 10 then
        { isValid := false, error := some (jstr "Too many arguments (maximum 10 allowed)") }
      else
        { isValid := true, sanitizedCommand := some (jsToLowerList (jsTrimList command)),
          sanitizedArgs := some (args.map jsTrimList) }) := by
  have he := lookup_isEmpty_false hlk
  have hsan := @sanitizeArgs_all_valid cfg (jsToLowerList (jsTrimList command)) args hargs
  simp only [validateAndSanitizeCommand, he, Bool.false_eq_true, if_false]
  rw [hlk]
  simp only [Option.isSome_some, Bool.true_or, Bool.not_true, Bool.false_eq_true, if_false]
  rw [hpat]
  dsimp only
  rw [hsan]
  simp [List.length_map]

/-- C8 witness: `ls` with eleven copies of `-l` is rejected with the
too-many-arguments message. -/
theorem arg_count_limit_sanitized_witness :
    validateAndSanitizeCommand (jstr "ls") (List.replicate 11 (jstr "-l")) =
      { isValid := false,
        error := some (jstr "Too many arguments (maximum 10 allowed)") } := by
  have h := arg_count_limit_sanitized (jstr "ls") (List.replicate 11 (jstr "-l"))
    { allowedArgs := [jstr "-l", jstr "-a", jstr "-la", jstr "-h", jstr "-R", jstr "--help"],
      description := jstr "List directory contents" }
    (by decide) (by rfl) (by decide)
  rw [h]
  decide

/-- C8 counterexample: an argument list of length 11 whose last element is
the empty string is accepted for `ls` (the count check runs after empty
arguments are dropped), and a length-10 list of individually valid path
arguments for `cat` is rejected (its composed line matches the
dot-between-word-characters pattern) — both halves of the claim as stated
fail. -/
theorem arg_count_limit_counterexample :
    ((validateAndSanitizeCommand (jstr "ls")
        [jstr "-l", jstr "-a", jstr "-la", jstr "-h", jstr "-R", jstr "--help",
         jstr "-l", jstr "-a", jstr "-la", jstr "-h", jstr ""]).isValid = true ∧
      ([jstr "-l", jstr "-a", jstr "-la", jstr "-h", jstr "-R", jstr "--help",
        jstr "-l", jstr "-a", jstr "-la", jstr "-h", jstr ""] : List JStr).length = 11) ∧
    ((validateAndSanitizeCommand (jstr "cat")
        [jstr "a.b", jstr "c/d", jstr "e_f", jstr "g-h", jstr "i1", jstr "j2",
         jstr "k3", jstr "l4", jstr "m5", jstr "n6"]).isValid = false ∧
      ([jstr "a.b", jstr "c/d", jstr "e_f", jstr "g-h", jstr "i1", jstr "j2",
        jstr "k3", jstr "l4", jstr "m5", jstr "n6"] : List JStr).length = 10 ∧
      ([jstr "a.b", jstr "c/d", jstr "e_f", jstr "g-h", jstr "i1", jstr "j2",
        jstr "k3", jstr "l4", jstr "m5", jstr "n6"] : List JStr).all
        (fun a => !(jsTrimList a).isEmpty &&
          argAccepted { allowedArgs := [jstr "--help"],
                        description := jstr "Display file contents",
                        requiresFile := true } (jsTrimList a)) = true) := by
  refine ⟨⟨by decide, by decide⟩, by decide, by decide, by decide⟩

/-- C3: with the boundary check active, for every current directory, user
path and the canonical boundary root R, the resolver accepts iff the path P
resolved against the current directory equals R or starts with R followed by
the path separator, and acceptance returns P itself. -/
theorem resolveAndValidatePath_accepts_iff (env : Option JStr) (pcwd C U R : JStr)
    (hR : R = pathResolve pcwd [getBoundaryDir env]) :
    ((resolveAndValidatePath env pcwd C U).isOk = true ↔
      (pathResolve pcwd [C, U] = R ∨ (R ++ ['/']) <+: pathResolve pcwd [C, U]))
    ∧ (∀ P, resolveAndValidatePath env pcwd C U = .ok P → P = pathResolve pcwd [C, U]) := by
  subst hR
  constructor
  · simp only [resolveAndValidatePath]
    split_ifs with hb
    · simp only [Bool.or_eq_true, decide_eq_true_eq, List.isPrefixOf_iff_prefix] at hb
      exact iff_of_true rfl hb
    · simp only [Bool.or_eq_true, decide_eq_true_eq, List.isPrefixOf_iff_prefix] at hb
      exact iff_of_false (by simp [ResolveResult.isOk]) hb
  · intro P hP
    simp only [resolveAndValidatePath] at hP
    split_ifs at hP with hb
    injection hP with h
    exact h.symm

/-- C3 witness: under boundary root `/tmp`, the escaping request
`../../../etc` (which resolves to `/etc`) is rejected, while `sub/dir` is
accepted and returns the resolved path. -/
theorem resolveAndValidatePath_accepts_iff_witness :
    (resolveAndValidatePath (some (jstr "/tmp")) (jstr "/") (jstr "/tmp")
      (jstr "../../../etc")).isOk = false ∧
    pathResolve (jstr "/") [jstr "/tmp", jstr "../../../etc"] = jstr "/etc" ∧
    (resolveAndValidatePath (some (jstr "/tmp")) (jstr "/") (jstr "/tmp")
      (jstr "sub/dir")) = .ok (jstr "/tmp/sub/dir") := by
  have h := resolveAndValidatePath_accepts_iff (some (jstr "/tmp")) (jstr "/")
    (jstr "/tmp") (jstr "../../../etc") (jstr "/tmp") (by decide)
  refine ⟨?_, by decide, by decide⟩
  have hnot : ¬(pathResolve (jstr "/") [jstr "/tmp", jstr "../../../etc"] = jstr "/tmp" ∨
      (jstr "/tmp" ++ ['/']) <+: pathResolve (jstr "/") [jstr "/tmp", jstr "../../../etc"]) := by
    rw [not_or]
    refine ⟨by decide, ?_⟩
    rw [← List.isPrefixOf_iff_prefix]
    decide
  cases hok : (resolveAndValidatePath (some (jstr "/tmp")) (jstr "/") (jstr "/tmp")
      (jstr "../../../etc")).isOk
  · rfl
  · exact absurd (h.1.mp hok) hnot

/-- C4 counterexample: with a symlink table mapping `/tmp/out` to `/etc`,
the two spellings `/tmp/out` and `/etc` denote the same physical directory,
yet the resolver accepts the first and rejects the second — no symlink
canonicalization happens before the prefix comparison. -/
theorem resolveAndValidatePath_symlink_alias_differs :
    specPhysicalPath [(jstr "/tmp/out", jstr "/etc")] (jstr "/tmp/out") =
      specPhysicalPath [(jstr "/tmp/out", jstr "/etc")] (jstr "/etc") ∧
    (resolveAndValidatePath (some (jstr "/tmp")) (jstr "/") (jstr "/")
      (jstr "/tmp/out")).isOk = true ∧
    (resolveAndValidatePath (some (jstr "/tmp")) (jstr "/") (jstr "/")
      (jstr "/etc")).isOk = false := by
  refine ⟨by decide, by decide, by decide⟩

/-- C4 (amended): the resolver canonicalizes only lexically — its decision
and result depend solely on the `path.resolve` image of the request, so
spellings with equal lexical resolution get the same outcome, while spellings
equal only up to symlink aliasing may not. -/
theorem resolveAndValidatePath_lexical_only (env : Option JStr) (pcwd C₁ U₁ C₂ U₂ : JStr)
    (h : pathResolve pcwd [C₁, U₁] = pathResolve pcwd [C₂, U₂]) :
    resolveAndValidatePath env pcwd C₁ U₁ = resolveAndValidatePath env pcwd C₂ U₂ := by
  unfold resolveAndValidatePath
  rw [h]

/-- C4 witness: `sub/../dir` and `dir` resolve to the same path, so the
resolver treats them identically. -/
theorem resolveAndValidatePath_lexical_only_witness :
    resolveAndValidatePath (some (jstr "/tmp")) (jstr "/") (jstr "/tmp")
      (jstr "sub/../dir") =
    resolveAndValidatePath (some (jstr "/tmp")) (jstr "/") (jstr "/tmp") (jstr "dir") :=
  resolveAndValidatePath_lexical_only (some (jstr "/tmp")) (jstr "/") (jstr "/tmp")
    (jstr "sub/../dir") (jstr "/tmp") (jstr "dir") (by decide)

/-- C5: with the escape flag enabled the resolver accepts every requested
path unconditionally and returns the naively resolved path; with the flag
unset it is exactly the boundary-checking `resolveAndValidatePath`. -/
theorem resolveWithEscape_spec :
    (∀ (env : Option JStr) (pcwd C U : JStr),
      resolveWithEscape true env pcwd C U = .ok (pathResolve pcwd [C, U])) ∧
    (∀ (env : Option JStr) (pcwd C U : JStr),
      (resolveWithEscape true env pcwd C U).isOk = true) ∧
    (∀ (env : Option JStr) (pcwd C U : JStr),
      resolveWithEscape false env pcwd C U = resolveAndValidatePath env pcwd C U) :=
  ⟨fun _ _ _ _ => rfl, fun _ _ _ _ => rfl, fun _ _ _ _ => rfl⟩

/-- C1 (amended): `executeCommand` applies no boundary check to
`options.cwd` — whenever validation accepts, the process is spawned with
`options.cwd || currentDirectory` under JS falsy semantics: an absent or
empty `cwd` falls back to the session's current directory, and any other
supplied `cwd` (boundary-checked or not) is used exactly as given; a
validation rejection is the only way no process is spawned. -/
theorem executeCommand_cwd_passthrough (st : ServerState) (command : JStr)
    (args : List JStr) (opts : ExecOptions) (b : ExecBehavior) :
    ((validateAndSanitizeCommand command args).isValid = true →
      ((executeCommand st command args opts b).2).spawnCwd =
        some (jsOrStr opts.cwd st.currentDirectory))
    ∧ (((executeCommand st command args opts b).2).isRejected = true ↔
        (validateAndSanitizeCommand command args).isValid = false) := by
  by_cases hv : (validateAndSanitizeCommand command args).isValid = false
  · constructor
    · intro ht
      rw [ht] at hv
      exact absurd hv (by decide)
    · simp [executeCommand, hv, ExecOutcome.isRejected]
  · constructor
    · intro ht
      cases b <;> simp [executeCommand, hv, ExecOutcome.spawnCwd]
    · cases b <;> simp [executeCommand, hv, ExecOutcome.isRejected]

/-- C1 witness: a validated `ls` request with `options.cwd = /etc` spawns
with working directory `/etc`, while one with the falsy empty-string `cwd`
falls back to the session's current directory. -/
theorem executeCommand_cwd_passthrough_witness :
    ((executeCommand sampleState (jstr "ls") [] { cwd := some (jstr "/etc") }
      (.success (jstr "out") [])).2).spawnCwd = some (jstr "/etc") ∧
    ((executeCommand sampleState (jstr "ls") [] { cwd := some [] }
      (.success (jstr "out") [])).2).spawnCwd = some sampleState.currentDirectory := by
  constructor
  · have h := (executeCommand_cwd_passthrough sampleState (jstr "ls") []
      { cwd := some (jstr "/etc") } (.success (jstr "out") [])).1 (by decide)
    rw [h]
    rfl
  · have h := (executeCommand_cwd_passthrough sampleState (jstr "ls") []
      { cwd := some [] } (.success (jstr "out") [])).1 (by decide)
    rw [h]
    rfl

/-- C1 counterexample: with boundary root `/tmp`, a request whose
`options.cwd` is `/etc` — a directory the boundary resolver rejects — is not
rejected and spawns the process with cwd `/etc`, so a cwd outside the
boundary root does not yield a boundary rejection. -/
theorem executeCommand_cwd_outside_boundary_spawns :
    ((executeCommand sampleState (jstr "ls") [] { cwd := some (jstr "/etc") }
      (.success (jstr "out") [])).2).spawnCwd = some (jstr "/etc") ∧
    ((executeCommand sampleState (jstr "ls") [] { cwd := some (jstr "/etc") }
      (.success (jstr "out") [])).2).isRejected = false ∧
    (resolveAndValidatePath (some (jstr "/tmp")) (jstr "/")
      sampleState.currentDirectory (jstr "/etc")).isOk = false := by
  refine ⟨by decide, by decide, by decide⟩

/-- C9: `lastCommand` and `lastExitCode` are set after every execution
attempt, on success and on failure alike, while a validation rejection
leaves the entire session state exactly as it was; `currentDirectory` is
never touched by `executeCommand`. -/
theorem session_state_update_discipline (st : ServerState) (command : JStr)
    (args : List JStr) (opts : ExecOptions) (b : ExecBehavior) :
    ((validateAndSanitizeCommand command args).isValid = false →
      (executeCommand st command args opts b).1 = st ∧
      ((executeCommand st command args opts b).2).isRejected = true)
    ∧ ((validateAndSanitizeCommand command args).isValid = true →
      (executeCommand st command args opts b).1.lastCommand =
        some (execFullCommand (validateAndSanitizeCommand command args)) ∧
      (executeCommand st command args opts b).1.lastExitCode =
        some (behaviorExitCode b) ∧
      (executeCommand st command args opts b).1.currentDirectory =
        st.currentDirectory) := by
  constructor
  · intro hv
    refine ⟨by simp [executeCommand, hv], by simp [executeCommand, hv, ExecOutcome.isRejected]⟩
  · intro ht
    have hv : ¬(validateAndSanitizeCommand command args).isValid = false := by
      rw [ht]; decide
    cases b <;>
      simp [executeCommand, hv, behaviorExitCode]

/-- C9 witness: a rejected `rm` leaves the sample state unchanged; a failed
`ls` records exit code 2; a successful `ls` records the composed command. -/
theorem session_state_update_discipline_witness :
    (executeCommand sampleState (jstr "rm") [jstr "-rf"] {}
      (.success [] [])).1 = sampleState ∧
    (executeCommand sampleState (jstr "ls") [] {}
      (.failure (some 2) none none (jstr "boom"))).1.lastExitCode = some 2 ∧
    (executeCommand sampleState (jstr "ls") [] {}
      (.success (jstr "out") [])).1.lastCommand = some (jstr "ls ") := by
  refine ⟨((session_state_update_discipline sampleState (jstr "rm") [jstr "-rf"] {}
      (.success [] [])).1 (by decide)).1, ?_, ?_⟩
  · have h := ((session_state_update_discipline sampleState (jstr "ls") [] {}
      (.failure (some 2) none none (jstr "boom"))).2 (by decide)).2.1
    rw [h]
    decide
  · have h := ((session_state_update_discipline sampleState (jstr "ls") [] {}
      (.success (jstr "out") [])).2 (by decide)).1
    rw [h]
    decide

/-- C10 (amended): for every `requiresFile` entry, a non-dash argument in the
path grammar passes the per-argument check; when the composed line also
passes the forbidden patterns — as for `/etc/passwd` and `../../secret` —
`executeCommand` spawns the command on that path even though the path lies
outside the boundary root: no boundary check is applied to file arguments. -/
theorem file_path_args_unchecked_against_boundary :
    (∀ (c : JStr) (cfg : CommandConfig), List.lookup c ALLOWED_COMMANDS = some cfg →
      cfg.requiresFile = true →
      ∀ (arg : JStr) (rest : List JStr), (jsTrimList arg).isEmpty = false →
      startsDash (jsTrimList arg) = false → pathGrammar (jsTrimList arg) = true →
      sanitizeArgs cfg c (arg :: rest) =
        (sanitizeArgs cfg c rest).map (fun l => jsTrimList arg :: l))
    ∧ ((executeCommand sampleState (jstr "cat") [jstr "/etc/passwd"] {}
        (.success (jstr "root") [])).2 =
      .completed ⟨jstr "cat /etc/passwd", sampleState.currentDirectory, 10000, []⟩
        (formatCommandOutput (jstr "root") [] (some 0)))
    ∧ (resolveAndValidatePath (some (jstr "/tmp")) (jstr "/")
        sampleState.currentDirectory (jstr "/etc/passwd")).isOk = false
    ∧ ((executeCommand sampleState (jstr "cat") [jstr "../../secret"] {}
        (.success (jstr "s") [])).2).isRejected = false := by
  refine ⟨?_, by decide, by decide, by decide⟩
  intro c cfg hlk hrf arg rest hne hd hg
  exact sanitizeArgs_cons_accept hne (by simp [argAccepted, hrf, hd, hg])

/-- C10 witness: the `cat` entry accepts the absolute path `/etc/passwd`
into the sanitized list. -/
theorem file_path_args_unchecked_against_boundary_witness :
    sanitizeArgs
      { allowedArgs := [jstr "--help"], description := jstr "Display file contents",
        requiresFile := true } (jstr "cat") [jstr "/etc/passwd"] =
    (sanitizeArgs
      { allowedArgs := [jstr "--help"], description := jstr "Display file contents",
        requiresFile := true } (jstr "cat") []).map
      (fun l => jsTrimList (jstr "/etc/passwd") :: l) :=
  (file_path_args_unchecked_against_boundary).1 (jstr "cat")
    { allowedArgs := [jstr "--help"], description := jstr "Display file contents",
      requiresFile := true }
    (by decide) rfl (jstr "/etc/passwd") [] (by decide) (by decide) (by decide)

/-- C10 counterexample: `a.b` is built solely from the path-grammar
characters and is not dash-led, yet `cat a.b` is rejected (the composed line
matches the dot-between-word-characters forbidden pattern) and no process is
spawned — the claim as stated fails for dotted file names. -/
theorem dotted_path_argument_rejected :
    pathGrammar (jsTrimList (jstr "a.b")) = true ∧
    startsDash (jsTrimList (jstr "a.b")) = false ∧
    (validateAndSanitizeCommand (jstr "cat") [jstr "a.b"]).isValid = false ∧
    ((executeCommand sampleState (jstr "cat") [jstr "a.b"] {}
      (.success (jstr "x") [])).2).isRejected = true := by
  refine ⟨by decide, by decide, by decide, by decide⟩

end Terminal
